import Mathlib

/-!
Verification of the BookLeaf frontend client core: the token stores
(`lib/auth-client`, `lib/use-token`), the API client (`lib/api`), and the two
chat controllers (`components/chat-ui.tsx` and the `ChatPage` component).
The TypeScript is embedded shallowly: React state updates become explicit
state records, a `fetch` call becomes an oracle argument describing the HTTP
outcome, and JavaScript truthiness on strings is modelled explicitly.
-/

namespace BookLeaf

/-- JavaScript truthiness of an optional string: `undefined`/`null` and the
empty string are falsy, every other string is truthy. -/
def truthy : Option String → Bool
  | none => false
  | some s => s ≠ ""

/-- JavaScript `x || d` where `x` is an optional string and `d` a default:
returns `d` when `x` is absent or empty. -/
def jsOrD (x : Option String) (d : String) : String :=
  match x with
  | some s => if s = "" then d else s
  | none => d

/-- JavaScript `a || d` on plain strings: returns `d` when `a` is empty. -/
def jsOrS (a d : String) : String :=
  if a = "" then d else a

/-- The `Response.ok` flag of `fetch`: status in the inclusive range 200–299. -/
def isOk (status : Nat) : Bool :=
  200 ≤ status && status ≤ 299

/-- JavaScript `String.prototype.trim`: strips leading and trailing
whitespace characters from both ends of the string. -/
def jsTrim (s : String) : String :=
  ⟨((s.data.dropWhile Char.isWhitespace).reverse.dropWhile Char.isWhitespace).reverse⟩

/-- Accumulator step for `Array.from(new Set(l))`: keep the first occurrence
of each element, in order; `seen` holds the elements already emitted. -/
def dedupFirstAux (seen : List String) : List String → List String
  | [] => []
  | x :: xs => if x ∈ seen then dedupFirstAux seen xs else x :: dedupFirstAux (x :: seen) xs

/-- JavaScript `Array.from(new Set(l))`: deduplicate keeping first-seen order
(a `Set` iterates in insertion order). -/
def dedupFirst (l : List String) : List String :=
  dedupFirstAux [] l

/-- JavaScript `.filter(Boolean)` on an array of string-or-undefined entries:
drops the absent and the empty strings. -/
def filterTruthy (l : List (Option String)) : List String :=
  l.filterMap fun o =>
    match o with
    | some s => if s = "" then none else some s
    | none => none

/-! ## Browser storage and the two token stores -/

/-- `window.localStorage` modelled as a partial map from keys to strings. -/
def Storage := String → Option String

/-- Storage with no keys set. -/
def Storage.empty : Storage := fun _ => none

/-- `localStorage.setItem(k, v)`. -/
def Storage.setItem (s : Storage) (k v : String) : Storage :=
  fun q => if q = k then some v else s q

/-- `localStorage.getItem(k)`. -/
def Storage.getItem (s : Storage) (k : String) : Option String :=
  s k

/-- `localStorage.removeItem(k)`. -/
def Storage.removeItem (s : Storage) (k : String) : Storage :=
  fun q => if q = k then none else s q

namespace AuthClient

/-- Storage key of `lib/auth-client` (`TOKEN_KEY = "blp_token"`). -/
def TOKEN_KEY : String := "blp_token"

/-- `getToken()` from `lib/auth-client`: reads `TOKEN_KEY`; the
server-side-rendering guard and the try/catch (swallowing storage failures as
`null`) are modelled by the storage itself being the success path. -/
def getToken (s : Storage) : Option String :=
  s.getItem TOKEN_KEY

/-- `setToken(token)` from `lib/auth-client`. -/
def setToken (s : Storage) (token : String) : Storage :=
  s.setItem TOKEN_KEY token

/-- `clearToken()` from `lib/auth-client`. -/
def clearToken (s : Storage) : Storage :=
  s.removeItem TOKEN_KEY

end AuthClient

namespace UseToken

/-- Storage key of `lib/use-token` (`TOKEN_KEY = "access_token"`). -/
def TOKEN_KEY : String := "access_token"

/-- The state the `useToken` hook exposes: the in-memory `token` React state
plus the underlying browser storage. -/
structure TokenState where
  token : Option String
  storage : Storage

/-- The mount effect of `useToken`: read the key from storage and set the
in-memory state only when the stored value is truthy. -/
def init (s : Storage) : TokenState :=
  match s.getItem TOKEN_KEY with
  | some t => if t = "" then ⟨none, s⟩ else ⟨some t, s⟩
  | none => ⟨none, s⟩

/-- `setToken(value)` from `useToken`: updates the in-memory state and writes
to storage. -/
def setToken (st : TokenState) (v : String) : TokenState :=
  ⟨some v, st.storage.setItem TOKEN_KEY v⟩

/-- `clearToken()` from `useToken`: clears the in-memory state and removes
the key from storage. -/
def clearToken (st : TokenState) : TokenState :=
  ⟨none, st.storage.removeItem TOKEN_KEY⟩

end UseToken

/-! ## API bodies and HTTP outcomes -/

/-- One entry of `reasoning_steps` in a chat response; only the `tool` field
is consumed by the frontend (`input`/`output` are never read). -/
structure ReasoningStep where
  tool : Option String
  deriving Repr, DecidableEq

/-- The parsed JSON body of a chat response (`ChatResponse` in the source);
every field is optional. `user_id` and `query` are never read by the
controllers and are omitted. -/
structure ChatBody where
  answer : Option String := none
  reasoning_steps : Option (List ReasoningStep) := none
  success : Option Bool := none
  error : Option String := none
  detail : Option String := none
  deriving Repr, DecidableEq

/-- The parsed JSON body of a login response (`LoginResponse` in the source),
with fields optional since the server is not trusted to supply them. -/
structure LoginBody where
  access_token : Option String := none
  token_type : Option String := none
  deriving Repr, DecidableEq

/-- Result of `res.json()`: the parsed value, or the message of the
rejection thrown on invalid JSON. -/
inductive JsonParse (α : Type) where
  | ok (v : α)
  | failed (msg : String)
  deriving Repr, DecidableEq

/-- Outcome of one `fetch` of the chat endpoint, as the environment resolves
it: a transport-level rejection (carrying `e?.message`), or an HTTP response
with its status, `statusText`, raw text body, and JSON parse result. -/
inductive HttpOutcome where
  | networkError (msg : Option String)
  | response (status : Nat) (statusText : String) (text : String) (json : JsonParse ChatBody)
  deriving Repr, DecidableEq

/-- Outcome of one `fetch` of the login endpoint. -/
inductive LoginOutcome where
  | networkError (msg : Option String)
  | response (status : Nat) (statusText : String) (text : String) (json : JsonParse LoginBody)
  deriving Repr, DecidableEq

/-! ## API client (`lib/api`) -/

/-- The failure `loginRequest` rejects with. -/
inductive LoginErr where
  | network (msg : Option String)
  | http (status : Nat) (msg : String)
  | parseFailed (msg : String)
  | missingToken
  deriving Repr, DecidableEq

/-- Result of `loginRequest`. -/
inductive LoginResult where
  | success (data : LoginBody)
  | failure (e : LoginErr)
  deriving Repr, DecidableEq

/-- `loginRequest(email, password)` from `lib/api`, evaluated against the
HTTP outcome the environment provides: on non-ok status it throws
`Login failed (<status>): <text || statusText || "Unknown error">`; on an ok
status it parses JSON and throws `Login response missing access_token.` when
the `access_token` field is absent or empty (falsy); otherwise it returns the
body. `email`/`password` only form the request body. -/
def loginRequest (email password : String) (out : LoginOutcome) : LoginResult :=
  match email, password, out with
  | _, _, .networkError msg => .failure (.network msg)
  | _, _, .response status statusText text json =>
    if ¬ isOk status then
      .failure (.http status ("Login failed (" ++ toString status ++ "): " ++
        jsOrS text (jsOrS statusText "Unknown error")))
    else
      match json with
      | .failed m => .failure (.parseFailed m)
      | .ok data =>
        if truthy data.access_token then .success data else .failure .missingToken

/-- The `Authorization` header `chatRequest` attaches:
`if (token) headers["Authorization"] = "Bearer " + token`. -/
def chatAuthHeader : Option String → Option String
  | none => none
  | some t => if t = "" then none else some ("Bearer " ++ t)

/-- The failure `chatRequest` rejects with. -/
inductive ChatErr where
  | network (msg : Option String)
  | http (status : Nat) (msg : String)
  | parseFailed (msg : String)
  deriving Repr, DecidableEq

/-- The `.message` field of a `chatRequest` rejection, as read by the caller
(`err?.message`); a transport error may lack one. -/
def ChatErr.message : ChatErr → Option String
  | .network msg => msg
  | .http _ m => some m
  | .parseFailed m => some m

/-- Result of `chatRequest`. -/
inductive ChatResult where
  | success (data : ChatBody)
  | failure (e : ChatErr)
  deriving Repr, DecidableEq

/-- `chatRequest(query, token?)` from `lib/api`: throws
`Chat failed (<status>): <text || statusText || "Unknown error">` on non-ok
status, propagates a JSON parse rejection on an ok status, and otherwise
returns the parsed body. `query` only forms the request body. -/
def chatRequest (query : String) (token : Option String) (out : HttpOutcome) : ChatResult :=
  match query, token, out with
  | _, _, .networkError msg => .failure (.network msg)
  | _, _, .response status statusText text json =>
    if ¬ isOk status then
      .failure (.http status ("Chat failed (" ++ toString status ++ "): " ++
        jsOrS text (jsOrS statusText "Unknown error")))
    else
      match json with
      | .failed m => .failure (.parseFailed m)
      | .ok data => .success data

/-! ## Messages and the outbound chat request -/

/-- Message roles. -/
inductive Role where
  | user
  | assistant
  deriving Repr, DecidableEq

/-- One entry of the chat session log. User messages carry no `tools` field;
the client-generated `id` (a random UUID used only as a React key) is not
modelled. -/
structure Message where
  role : Role
  content : String
  tools : Option (List String) := none
  deriving Repr, DecidableEq

/-- The outbound `POST /chat` request a controller issues: its JSON body
`{ query, verbose: true }` and its `Authorization` header, if any. -/
structure ChatHttpRequest where
  query : String
  verbose : Bool
  authHeader : Option String
  deriving Repr, DecidableEq

/-! ## Chat controller of `components/chat-ui.tsx` -/

namespace ChatUI

/-- React state of the `ChatUI` component. -/
structure State where
  token : Option String
  messages : List Message
  input : String
  sending : Bool
  error : Option String
  deriving Repr, DecidableEq

/-- Observable result of one `sendMessage` run: the final component state,
the chat request issued (if any), and whether `clearToken()` (which removes
the auth-client storage key) and `router.push("/")` were invoked. -/
structure SendResult where
  state : State
  request : Option ChatHttpRequest
  tokenCleared : Bool
  redirect : Bool
  deriving Repr, DecidableEq

/-- The fallback body `res.json().catch(...)` substitutes when the response
body is not valid JSON: `{ error: "Invalid JSON from server" }`. -/
def invalidJsonFallback : ChatBody :=
  { error := some "Invalid JSON from server" }

/-- `await res.json().catch(() => ({ error: "Invalid JSON from server" }))`:
the parsed body, or the fallback when parsing failed. -/
def parsedBody : JsonParse ChatBody → ChatBody
  | .ok d => d
  | .failed _ => invalidJsonFallback

/-- Tool names attached to the assistant message:
`Array.from(new Set((data?.reasoning_steps || []).map((s) => s?.tool).filter(Boolean)))`. -/
def extractTools (data : ChatBody) : List String :=
  dedupFirst (filterTruthy ((data.reasoning_steps.getD []).map (·.tool)))

/-- `sendMessage` from `components/chat-ui.tsx`, with the awaited `fetch`
resolved by the `out` oracle. Guard `if (!input.trim() || !token) return`;
then the user message (trimmed content) is appended, the input cleared and
`sending` set, the request issued with a bearer header, and the outcome
handled: transport error records `e?.message || "Network error"`; a 401
records a session-expiry message, clears the token and redirects; another
non-ok status records `data?.detail || data?.error || "Request failed with
status <s>"`; an ok status appends one assistant message with content
`data?.answer || "(no answer returned)"` and the deduplicated tools. The
`finally` clause resets `sending` on every path. -/
def sendMessage (s : State) (out : HttpOutcome) : SendResult :=
  if jsTrim s.input = "" ∨ ¬ truthy s.token then
    ⟨s, none, false, false⟩
  else
    let tk := s.token.getD ""
    let userMsg : Message := ⟨.user, jsTrim s.input, none⟩
    let s1 : State :=
      { s with error := none, messages := s.messages ++ [userMsg], input := "", sending := true }
    let req : ChatHttpRequest := ⟨userMsg.content, true, some ("Bearer " ++ tk)⟩
    match out with
    | .networkError msg =>
      ⟨{ s1 with error := some (jsOrD msg "Network error"), sending := false }, some req, false, false⟩
    | .response status _statusText _text json =>
      let data : ChatBody := parsedBody json
      if status = 401 then
        let s2 : State := { s1 with error := some "Your session has expired. Please log in again.", sending := false }
        ⟨s2, some req, true, true⟩
      else if ¬ isOk status then
        let detail := jsOrD data.detail (jsOrD data.error ("Request failed with status " ++ toString status))
        ⟨{ s1 with error := some detail, sending := false }, some req, false, false⟩
      else
        let assistantMsg : Message := ⟨.assistant, jsOrD data.answer "(no answer returned)", some (extractTools data)⟩
        ⟨{ s1 with messages := s1.messages ++ [assistantMsg], sending := false }, some req, false, false⟩

/-- The `disabled` predicate of the Send button:
`!token || sending || !input.trim()`. -/
def sendButtonDisabled (s : State) : Bool :=
  !(truthy s.token) || s.sending || jsTrim s.input == ""

/-- The `disabled` predicate of the input textarea: `!token || sending`. -/
def textareaDisabled (s : State) : Bool :=
  !(truthy s.token) || s.sending

/-- A user click on the Send button: a disabled button does not fire its
`onClick` handler, so `sendMessage` only runs when the button is enabled. -/
def clickSend (s : State) (out : HttpOutcome) : SendResult :=
  if sendButtonDisabled s then ⟨s, none, false, false⟩ else sendMessage s out

/-- A Cmd/Ctrl+Enter keystroke in the textarea: a disabled control receives
no key events, so the `onKeyDown` handler only runs when enabled. -/
def keySubmit (s : State) (out : HttpOutcome) : SendResult :=
  if textareaDisabled s then ⟨s, none, false, false⟩ else sendMessage s out

end ChatUI

/-! ## Chat controller of the `ChatPage` component -/

namespace ChatPage

/-- React state of the `ChatPage` component (token supplied by `useToken`). -/
structure State where
  token : Option String
  messages : List Message
  input : String
  loading : Bool
  error : Option String
  deriving Repr, DecidableEq

/-- Observable result of one `ChatPage.sendMessage` run. The component never
invokes `clearToken` nor a router redirect, so the result records only the
final state and the request issued, if any. -/
structure SendResult where
  state : State
  request : Option ChatHttpRequest
  deriving Repr, DecidableEq

/-- Whether `ChatPage.sendMessage` performed the session-invalidation
recovery (clearing the stored token): the component has no such code path,
so this is `false` for every run. -/
def SendResult.tokenCleared (_ : SendResult) : Bool := false

/-- Whether `ChatPage.sendMessage` triggered a redirect to the entry view:
the component has no such code path, so this is `false` for every run. -/
def SendResult.redirect (_ : SendResult) : Bool := false

/-- `sendMessage` from the `ChatPage` component, with the awaited
`chatRequest` resolved by the `out` oracle. Guard `if (!input.trim()) return`;
the user message (untrimmed content) is appended, then
`chatRequest(input, token || undefined)` runs: on success one assistant
message is appended with content `res?.answer || "(No answer provided.)"` and
tools `res?.reasoning_steps?.map((s) => s?.tool).filter(Boolean)`, and the
input is cleared; on failure `err?.message || "Something went wrong sending
your message."` is recorded. The `finally` clause resets `loading`. -/
def sendMessage (s : State) (out : HttpOutcome) : SendResult :=
  if jsTrim s.input = "" then
    ⟨s, none⟩
  else
    let userMsg : Message := ⟨.user, s.input, none⟩
    let s1 : State :=
      { s with error := none, loading := true, messages := s.messages ++ [userMsg] }
    let tokenArg : Option String := if truthy s.token then s.token else none
    let req : ChatHttpRequest := ⟨s.input, true, chatAuthHeader tokenArg⟩
    match chatRequest s.input tokenArg out with
    | .success res =>
      let tools : Option (List String) :=
        res.reasoning_steps.map fun steps => filterTruthy (steps.map (·.tool))
      let assistantMsg : Message := ⟨.assistant, jsOrD res.answer "(No answer provided.)", tools⟩
      ⟨{ s1 with messages := s1.messages ++ [assistantMsg], input := "", loading := false }, some req⟩
    | .failure e =>
      let s2 : State := { s1 with error := some (jsOrD e.message "Something went wrong sending your message."), loading := false }
      ⟨s2, some req⟩

/-- The `disabled` predicate of the submit button: `loading || !input.trim()`. -/
def submitButtonDisabled (s : State) : Bool :=
  s.loading || jsTrim s.input == ""

/-- A user submission of the chat form. The only submission path is the
submit button (the textarea consumes Enter), and a disabled button cannot
submit the form, so `sendMessage` runs only when the button is enabled. -/
def submitEvent (s : State) (out : HttpOutcome) : SendResult :=
  if submitButtonDisabled s then ⟨s, none⟩ else sendMessage s out

/-- Tool badges rendered for an assistant message:
`Array.from(new Set(m.tools))` in first-seen order. -/
def renderToolBadges (tools : List String) : List String :=
  dedupFirst tools

end ChatPage

/-! ## Helper lemmas: deduplication -/

theorem mem_dedupFirstAux {l : List String} {seen : List String} {x : String} :
    x ∈ dedupFirstAux seen l ↔ x ∈ l ∧ x ∉ seen := by
  induction l generalizing seen with
  | nil => simp [dedupFirstAux]
  | cons y ys ih =>
    by_cases hy : y ∈ seen
    · simp only [dedupFirstAux, if_pos hy, ih]
      constructor
      · rintro ⟨hx, hns⟩
        exact ⟨List.mem_cons_of_mem y hx, hns⟩
      · rintro ⟨hx, hns⟩
        rcases List.mem_cons.mp hx with rfl | hx
        · exact absurd hy hns
        · exact ⟨hx, hns⟩
    · simp only [dedupFirstAux, if_neg hy]
      constructor
      · intro hx
        rcases List.mem_cons.mp hx with rfl | hx
        · exact ⟨List.mem_cons_self x ys, hy⟩
        · obtain ⟨h1, h2⟩ := ih.mp hx
          exact ⟨List.mem_cons_of_mem y h1, fun hc => h2 (List.mem_cons_of_mem y hc)⟩
      · rintro ⟨hx, hns⟩
        rcases List.mem_cons.mp hx with rfl | hx
        · exact List.mem_cons_self x _
        · by_cases hxy : x = y
          · subst hxy
            exact List.mem_cons_self x _
          · refine List.mem_cons_of_mem y (ih.mpr ⟨hx, ?_⟩)
            intro hc
            rcases List.mem_cons.mp hc with h | h
            · exact hxy h
            · exact hns h

theorem nodup_dedupFirstAux (l : List String) (seen : List String) :
    (dedupFirstAux seen l).Nodup := by
  induction l generalizing seen with
  | nil => simp [dedupFirstAux]
  | cons y ys ih =>
    by_cases hy : y ∈ seen
    · simpa only [dedupFirstAux, if_pos hy] using ih seen
    · simp only [dedupFirstAux, if_neg hy, List.nodup_cons]
      refine ⟨fun hmem => ?_, ih (y :: seen)⟩
      exact (mem_dedupFirstAux.mp hmem).2 (List.mem_cons_self y seen)

theorem sublist_dedupFirstAux (l : List String) (seen : List String) :
    List.Sublist (dedupFirstAux seen l) l := by
  induction l generalizing seen with
  | nil => simp [dedupFirstAux]
  | cons y ys ih =>
    by_cases hy : y ∈ seen
    · simp only [dedupFirstAux, if_pos hy]
      exact List.Sublist.cons y (ih seen)
    · simp only [dedupFirstAux, if_neg hy]
      exact List.Sublist.cons₂ y (ih (y :: seen))

theorem dedupFirst_sublist (l : List String) : List.Sublist (dedupFirst l) l :=
  sublist_dedupFirstAux l []

theorem dedupFirst_nodup (l : List String) : (dedupFirst l).Nodup :=
  nodup_dedupFirstAux l []

theorem mem_dedupFirst {l : List String} {x : String} : x ∈ dedupFirst l ↔ x ∈ l := by
  simp [dedupFirst, mem_dedupFirstAux]

theorem dedupFirst_head (x : String) (xs : List String) :
    (dedupFirst (x :: xs)).head? = some x := by
  simp [dedupFirst, dedupFirstAux]

/-! ## Helper lemmas: controller branch equations -/

theorem ChatUI.sendMessage_guard (s : ChatUI.State) (out : HttpOutcome)
    (h : jsTrim s.input = "" ∨ ¬ truthy s.token) :
    ChatUI.sendMessage s out = ⟨s, none, false, false⟩ := by
  rcases h with h | h <;> simp [ChatUI.sendMessage, h]

theorem ChatUI.sendMessage_networkError (s : ChatUI.State) (tk : String) (msg : Option String)
    (htok : s.token = some tk) (htk : tk ≠ "") (hin : jsTrim s.input ≠ "") :
    ChatUI.sendMessage s (.networkError msg) =
      ⟨⟨s.token, s.messages ++ [⟨.user, jsTrim s.input, none⟩], "", false,
          some (jsOrD msg "Network error")⟩,
        some ⟨jsTrim s.input, true, some ("Bearer " ++ tk)⟩, false, false⟩ := by
  simp [ChatUI.sendMessage, hin, htok, truthy, htk]

theorem ChatUI.sendMessage_401 (s : ChatUI.State) (tk : String) (st text : String)
    (json : JsonParse ChatBody)
    (htok : s.token = some tk) (htk : tk ≠ "") (hin : jsTrim s.input ≠ "") :
    ChatUI.sendMessage s (.response 401 st text json) =
      ⟨⟨s.token, s.messages ++ [⟨.user, jsTrim s.input, none⟩], "", false,
          some "Your session has expired. Please log in again."⟩,
        some ⟨jsTrim s.input, true, some ("Bearer " ++ tk)⟩, true, true⟩ := by
  simp [ChatUI.sendMessage, hin, htok, truthy, htk]

theorem ChatUI.sendMessage_httpError (s : ChatUI.State) (tk : String) (status : Nat)
    (st text : String) (json : JsonParse ChatBody)
    (htok : s.token = some tk) (htk : tk ≠ "") (hin : jsTrim s.input ≠ "")
    (h401 : status ≠ 401) (hok : isOk status = false) :
    ChatUI.sendMessage s (.response status st text json) =
      ⟨⟨s.token, s.messages ++ [⟨.user, jsTrim s.input, none⟩], "", false,
          some (jsOrD (parsedBody json).detail (jsOrD (parsedBody json).error
            ("Request failed with status " ++ toString status)))⟩,
        some ⟨jsTrim s.input, true, some ("Bearer " ++ tk)⟩, false, false⟩ := by
  simp [ChatUI.sendMessage, hin, htok, truthy, htk, h401, hok]

theorem ChatUI.sendMessage_success (s : ChatUI.State) (tk : String) (status : Nat)
    (st text : String) (json : JsonParse ChatBody)
    (htok : s.token = some tk) (htk : tk ≠ "") (hin : jsTrim s.input ≠ "")
    (hok : isOk status = true) :
    ChatUI.sendMessage s (.response status st text json) =
      ⟨⟨s.token, s.messages ++ [⟨.user, jsTrim s.input, none⟩,
            ⟨.assistant, jsOrD (parsedBody json).answer "(no answer returned)",
              some (ChatUI.extractTools (parsedBody json))⟩], "", false, none⟩,
        some ⟨jsTrim s.input, true, some ("Bearer " ++ tk)⟩, false, false⟩ := by
  have h401 : status ≠ 401 := by
    intro h
    rw [h] at hok
    simp [isOk] at hok
  simp [ChatUI.sendMessage, hin, htok, truthy, htk, h401, hok]

theorem ChatPage.sendMessage_blankInput (s : ChatPage.State) (out : HttpOutcome)
    (h : jsTrim s.input = "") :
    ChatPage.sendMessage s out = ⟨s, none⟩ := by
  simp [ChatPage.sendMessage, h]

theorem ChatPage.sendMessage_failure (s : ChatPage.State) (out : HttpOutcome) (e : ChatErr)
    (hin : jsTrim s.input ≠ "")
    (h : chatRequest s.input (if truthy s.token then s.token else none) out = .failure e) :
    ChatPage.sendMessage s out =
      ⟨⟨s.token, s.messages ++ [⟨.user, s.input, none⟩], s.input, false,
          some (jsOrD e.message "Something went wrong sending your message.")⟩,
        some ⟨s.input, true, chatAuthHeader (if truthy s.token then s.token else none)⟩⟩ := by
  simp [ChatPage.sendMessage, hin, h]

theorem ChatPage.sendMessage_ok (s : ChatPage.State) (out : HttpOutcome) (res : ChatBody)
    (hin : jsTrim s.input ≠ "")
    (h : chatRequest s.input (if truthy s.token then s.token else none) out = .success res) :
    ChatPage.sendMessage s out =
      ⟨⟨s.token, s.messages ++ [⟨.user, s.input, none⟩,
            ⟨.assistant, jsOrD res.answer "(No answer provided.)",
              res.reasoning_steps.map fun steps => filterTruthy (steps.map (·.tool))⟩],
          "", false, none⟩,
        some ⟨s.input, true, chatAuthHeader (if truthy s.token then s.token else none)⟩⟩ := by
  simp [ChatPage.sendMessage, hin, h]

theorem chatRequest_networkError (query : String) (token : Option String) (msg : Option String) :
    chatRequest query token (.networkError msg) = .failure (.network msg) := rfl

theorem chatRequest_httpError (query : String) (token : Option String) (status : Nat)
    (st text : String) (json : JsonParse ChatBody) (hok : isOk status = false) :
    chatRequest query token (.response status st text json) =
      .failure (.http status ("Chat failed (" ++ toString status ++ "): " ++
        jsOrS text (jsOrS st "Unknown error"))) := by
  simp [chatRequest, hok]

theorem chatRequest_parseFailed (query : String) (token : Option String) (status : Nat)
    (st text msg : String) (hok : isOk status = true) :
    chatRequest query token (.response status st text (.failed msg)) =
      .failure (.parseFailed msg) := by
  simp [chatRequest, hok]

theorem chatRequest_success (query : String) (token : Option String) (status : Nat)
    (st text : String) (data : ChatBody) (hok : isOk status = true) :
    chatRequest query token (.response status st text (.ok data)) = .success data := by
  simp [chatRequest, hok]

theorem ChatUI.sendMessage_request (s : ChatUI.State) (out : HttpOutcome) (tk : String)
    (htok : s.token = some tk) (htk : tk ≠ "") (hin : jsTrim s.input ≠ "") :
    (ChatUI.sendMessage s out).request =
      some ⟨jsTrim s.input, true, some ("Bearer " ++ tk)⟩ := by
  cases out with
  | networkError msg =>
    rw [ChatUI.sendMessage_networkError s tk msg htok htk hin]
  | response status st text json =>
    by_cases h401 : status = 401
    · subst h401
      rw [ChatUI.sendMessage_401 s tk st text json htok htk hin]
    · cases hok : isOk status with
      | false => rw [ChatUI.sendMessage_httpError s tk status st text json htok htk hin h401 hok]
      | true => rw [ChatUI.sendMessage_success s tk status st text json htok htk hin hok]

theorem ChatPage.sendMessage_issuedRequest (s : ChatPage.State) (out : HttpOutcome)
    (hin : jsTrim s.input ≠ "") :
    (ChatPage.sendMessage s out).request =
      some ⟨s.input, true, chatAuthHeader (if truthy s.token then s.token else none)⟩ := by
  cases h : chatRequest s.input (if truthy s.token then s.token else none) out with
  | success res => rw [ChatPage.sendMessage_ok s out res hin h]
  | failure e => rw [ChatPage.sendMessage_failure s out e hin h]

theorem chatAuthHeader_if_truthy (t : Option String) :
    chatAuthHeader (if truthy t then t else none) = chatAuthHeader t := by
  cases t with
  | none => simp [truthy]
  | some v => by_cases hv : v = "" <;> simp [truthy, hv, chatAuthHeader]

/-! ## Claims -/

/-- C1: while a send is in flight (`sending`/`loading` is true), a further
user submission through either controller is a no-op: the component state —
in particular the message log and its length — is unchanged, and no second
chat request is issued. The in-flight guard is the `disabled` attribute on
the send controls, through which every submission path runs. -/
theorem C1_inflight_submit_is_noop :
    (∀ (s : ChatUI.State) (out : HttpOutcome), s.sending = true →
        ChatUI.clickSend s out = ⟨s, none, false, false⟩ ∧
        ChatUI.keySubmit s out = ⟨s, none, false, false⟩) ∧
    (∀ (s : ChatPage.State) (out : HttpOutcome), s.loading = true →
        ChatPage.submitEvent s out = ⟨s, none⟩) := by
  refine ⟨fun s out h => ⟨?_, ?_⟩, fun s out h => ?_⟩
  · simp [ChatUI.clickSend, ChatUI.sendButtonDisabled, h]
  · simp [ChatUI.keySubmit, ChatUI.textareaDisabled, h]
  · simp [ChatPage.submitEvent, ChatPage.submitButtonDisabled, h]

/-- Witness for C1: a concrete in-flight state, a click and a form submit. -/
theorem C1_inflight_submit_is_noop_witness :
    ChatUI.clickSend ⟨some "tok", [], "hello", true, none⟩ (.networkError none) =
      ⟨⟨some "tok", [], "hello", true, none⟩, none, false, false⟩ ∧
    ChatPage.submitEvent ⟨some "tok", [], "hello", true, none⟩ (.networkError none) =
      ⟨⟨some "tok", [], "hello", true, none⟩, none⟩ :=
  ⟨(C1_inflight_submit_is_noop.1 ⟨some "tok", [], "hello", true, none⟩ (.networkError none) rfl).1,
    C1_inflight_submit_is_noop.2 ⟨some "tok", [], "hello", true, none⟩ (.networkError none) rfl⟩

/-- C2 counterexample: in the `ChatPage` controller, a chat submit that
receives HTTP 401 issues a request and records an error, but neither clears
the stored token nor triggers a redirect — refuting the claim as stated over
every chat submit of the program. -/
theorem C2_counterexample_chatPage_401 :
    (ChatPage.sendMessage ⟨some "tok123", [], "hello", false, none⟩
        (.response 401 "Unauthorized" "" (.ok {}))).request.isSome = true ∧
    (ChatPage.sendMessage ⟨some "tok123", [], "hello", false, none⟩
        (.response 401 "Unauthorized" "" (.ok {}))).state.error.isSome = true ∧
    (ChatPage.sendMessage ⟨some "tok123", [], "hello", false, none⟩
        (.response 401 "Unauthorized" "" (.ok {}))).tokenCleared = false ∧
    (ChatPage.sendMessage ⟨some "tok123", [], "hello", false, none⟩
        (.response 401 "Unauthorized" "" (.ok {}))).redirect = false := by
  exact ⟨by decide, by decide, rfl, rfl⟩

/-- C2 (amended): in the `ChatUI` controller every chat submit receiving
HTTP 401 clears the stored token, triggers the redirect to the entry view,
and appends no assistant message; the parallel `ChatPage` controller instead
only records an error on 401, clearing no token and redirecting nowhere. -/
theorem C2_chat_401_clears_token_and_redirects :
    (∀ (s : ChatUI.State) (tk st text : String) (json : JsonParse ChatBody),
        s.token = some tk → tk ≠ "" → jsTrim s.input ≠ "" →
        (ChatUI.sendMessage s (.response 401 st text json)).tokenCleared = true ∧
        (ChatUI.sendMessage s (.response 401 st text json)).redirect = true ∧
        (ChatUI.sendMessage s (.response 401 st text json)).state.messages =
          s.messages ++ [⟨.user, jsTrim s.input, none⟩]) ∧
    (∀ (s : ChatPage.State) (st text : String) (json : JsonParse ChatBody),
        jsTrim s.input ≠ "" →
        (ChatPage.sendMessage s (.response 401 st text json)).tokenCleared = false ∧
        (ChatPage.sendMessage s (.response 401 st text json)).redirect = false ∧
        (ChatPage.sendMessage s (.response 401 st text json)).state.messages =
          s.messages ++ [⟨.user, s.input, none⟩] ∧
        (ChatPage.sendMessage s (.response 401 st text json)).state.error.isSome = true) := by
  constructor
  · intro s tk st text json htok htk hin
    rw [ChatUI.sendMessage_401 s tk st text json htok htk hin]
    exact ⟨rfl, rfl, rfl⟩
  · intro s st text json hin
    have hok : isOk 401 = false := by decide
    have h := ChatPage.sendMessage_failure s (.response 401 st text json) _ hin
      (chatRequest_httpError s.input (if truthy s.token then s.token else none) 401 st text json hok)
    rw [h]
    exact ⟨rfl, rfl, rfl, rfl⟩

/-- Witness for C2 (amended): a concrete 401 on each controller. -/
theorem C2_chat_401_clears_token_and_redirects_witness :
    ((ChatUI.sendMessage ⟨some "tok", [], "hi", false, none⟩
        (.response 401 "Unauthorized" "" (.ok {}))).tokenCleared = true ∧
      (ChatUI.sendMessage ⟨some "tok", [], "hi", false, none⟩
        (.response 401 "Unauthorized" "" (.ok {}))).redirect = true ∧
      (ChatUI.sendMessage ⟨some "tok", [], "hi", false, none⟩
        (.response 401 "Unauthorized" "" (.ok {}))).state.messages =
        ([] : List Message) ++ [⟨.user, jsTrim "hi", none⟩]) ∧
    (ChatPage.sendMessage ⟨some "tok", [], "hi", false, none⟩
        (.response 401 "Unauthorized" "" (.ok {}))).tokenCleared = false :=
  ⟨C2_chat_401_clears_token_and_redirects.1 ⟨some "tok", [], "hi", false, none⟩
      "tok" "Unauthorized" "" (.ok {}) rfl (by decide) (by decide),
    (C2_chat_401_clears_token_and_redirects.2 ⟨some "tok", [], "hi", false, none⟩
      "Unauthorized" "" (.ok {}) (by decide)).1⟩

/-- C3 counterexample: a token written through the auth-client store (key
"blp_token") is not returned by a read through the use-token hook (key
"access_token"): the cross-component round trip yields absent, refuting the
claim that a write through any component is seen by a read through any
component under one fixed key. -/
theorem C3_counterexample_cross_component_read :
    (UseToken.init (AuthClient.setToken Storage.empty "tok123")).token = none ∧
    (UseToken.init (AuthClient.setToken Storage.empty "tok123")).token ≠ some "tok123" := by
  exact ⟨rfl, by decide⟩

/-- C3 (amended): each token store persists a single string under its own
fixed key and round-trips within itself — write then read returns the token
and clear then read returns absent — but the two components use two
different storage keys, so the round trip does not hold across components. -/
theorem C3_token_store_roundtrip_per_component :
    (∀ (st : Storage) (t : String), AuthClient.getToken (AuthClient.setToken st t) = some t) ∧
    (∀ st : Storage, AuthClient.getToken (AuthClient.clearToken st) = none) ∧
    (∀ (h : UseToken.TokenState) (t : String), (UseToken.setToken h t).token = some t ∧
        (UseToken.setToken h t).storage.getItem UseToken.TOKEN_KEY = some t) ∧
    (∀ h : UseToken.TokenState, (UseToken.clearToken h).token = none ∧
        (UseToken.clearToken h).storage.getItem UseToken.TOKEN_KEY = none) ∧
    AuthClient.TOKEN_KEY ≠ UseToken.TOKEN_KEY := by
  refine ⟨fun st t => ?_, fun st => ?_, fun h t => ⟨rfl, ?_⟩, fun h => ⟨rfl, ?_⟩, by decide⟩
  · simp [AuthClient.getToken, AuthClient.setToken, Storage.getItem, Storage.setItem]
  · simp [AuthClient.getToken, AuthClient.clearToken, Storage.getItem, Storage.removeItem]
  · simp [UseToken.setToken, Storage.getItem, Storage.setItem]
  · simp [UseToken.clearToken, Storage.getItem, Storage.removeItem]

/-- C4: with the send preconditions holding (a truthy token in `ChatUI`),
any input with non-empty trim makes `submit` append exactly one user message
— present in the final log right after the prior messages whatever the
network outcome, followed only by assistant messages — and issue a request;
any input with empty trim leaves the whole state unchanged and issues no
request. -/
theorem C4_submit_appends_exactly_one_user_message :
    (∀ (s : ChatUI.State) (out : HttpOutcome) (tk : String),
        s.token = some tk → tk ≠ "" → jsTrim s.input ≠ "" →
        ∃ rest, (ChatUI.sendMessage s out).state.messages =
            s.messages ++ ⟨.user, jsTrim s.input, none⟩ :: rest ∧
          (∀ m ∈ rest, m.role = Role.assistant) ∧
          (ChatUI.sendMessage s out).request.isSome = true) ∧
    (∀ (s : ChatUI.State) (out : HttpOutcome), jsTrim s.input = "" →
        ChatUI.sendMessage s out = ⟨s, none, false, false⟩) ∧
    (∀ (s : ChatPage.State) (out : HttpOutcome), jsTrim s.input ≠ "" →
        ∃ rest, (ChatPage.sendMessage s out).state.messages =
            s.messages ++ ⟨.user, s.input, none⟩ :: rest ∧
          (∀ m ∈ rest, m.role = Role.assistant) ∧
          (ChatPage.sendMessage s out).request.isSome = true) ∧
    (∀ (s : ChatPage.State) (out : HttpOutcome), jsTrim s.input = "" →
        ChatPage.sendMessage s out = ⟨s, none⟩) := by
  refine ⟨?_, ?_, ?_, ?_⟩
  · intro s out tk htok htk hin
    cases out with
    | networkError msg =>
      rw [ChatUI.sendMessage_networkError s tk msg htok htk hin]
      exact ⟨[], rfl, by simp, rfl⟩
    | response status st text json =>
      by_cases h401 : status = 401
      · subst h401
        rw [ChatUI.sendMessage_401 s tk st text json htok htk hin]
        exact ⟨[], rfl, by simp, rfl⟩
      · cases hok : isOk status with
        | false =>
          rw [ChatUI.sendMessage_httpError s tk status st text json htok htk hin h401 hok]
          exact ⟨[], rfl, by simp, rfl⟩
        | true =>
          rw [ChatUI.sendMessage_success s tk status st text json htok htk hin hok]
          exact ⟨[⟨.assistant, jsOrD (ChatUI.parsedBody json).answer "(no answer returned)",
            some (ChatUI.extractTools (ChatUI.parsedBody json))⟩], rfl, by simp, rfl⟩
  · intro s out h
    exact ChatUI.sendMessage_guard s out (Or.inl h)
  · intro s out hin
    cases hreq : chatRequest s.input (if truthy s.token then s.token else none) out with
    | failure e =>
      rw [ChatPage.sendMessage_failure s out e hin hreq]
      exact ⟨[], rfl, by simp, rfl⟩
    | success res =>
      rw [ChatPage.sendMessage_ok s out res hin hreq]
      exact ⟨[⟨.assistant, jsOrD res.answer "(No answer provided.)",
        res.reasoning_steps.map fun steps => filterTruthy (steps.map (·.tool))⟩], rfl, by simp, rfl⟩
  · intro s out h
    exact ChatPage.sendMessage_blankInput s out h

/-- Witness for C4: a concrete non-empty and a concrete blank submission. -/
theorem C4_submit_appends_exactly_one_user_message_witness :
    (∃ rest, (ChatUI.sendMessage ⟨some "tok", [], "hi", false, none⟩
          (.networkError none)).state.messages =
        ([] : List Message) ++ ⟨.user, jsTrim "hi", none⟩ :: rest ∧
      (∀ m ∈ rest, m.role = Role.assistant) ∧
      (ChatUI.sendMessage ⟨some "tok", [], "hi", false, none⟩
        (.networkError none)).request.isSome = true) ∧
    ChatUI.sendMessage ⟨some "tok", [], "   ", false, none⟩ (.networkError none) =
      ⟨⟨some "tok", [], "   ", false, none⟩, none, false, false⟩ :=
  ⟨C4_submit_appends_exactly_one_user_message.1 ⟨some "tok", [], "hi", false, none⟩
      (.networkError none) "tok" rfl (by decide) (by decide),
    C4_submit_appends_exactly_one_user_message.2.1 ⟨some "tok", [], "   ", false, none⟩
      (.networkError none) (by decide)⟩

/-- C5: a failed chat send — transport error or non-2xx status — appends no
assistant message, keeps the already-appended user message as the last
change to the log, and records an error message for display; a successful
send appends at most one assistant message. Stated for both controllers. -/
theorem C5_failed_send_keeps_user_and_no_assistant :
    (∀ (s : ChatUI.State) (tk : String) (msg : Option String),
        s.token = some tk → tk ≠ "" → jsTrim s.input ≠ "" →
        (ChatUI.sendMessage s (.networkError msg)).state.messages =
          s.messages ++ [⟨.user, jsTrim s.input, none⟩] ∧
        (ChatUI.sendMessage s (.networkError msg)).state.error.isSome = true) ∧
    (∀ (s : ChatUI.State) (tk : String) (status : Nat) (st text : String)
        (json : JsonParse ChatBody),
        s.token = some tk → tk ≠ "" → jsTrim s.input ≠ "" → isOk status = false →
        (ChatUI.sendMessage s (.response status st text json)).state.messages =
          s.messages ++ [⟨.user, jsTrim s.input, none⟩] ∧
        (ChatUI.sendMessage s (.response status st text json)).state.error.isSome = true) ∧
    (∀ (s : ChatUI.State) (tk : String) (status : Nat) (st text : String)
        (json : JsonParse ChatBody),
        s.token = some tk → tk ≠ "" → jsTrim s.input ≠ "" → isOk status = true →
        ∃ a, a.role = Role.assistant ∧
          (ChatUI.sendMessage s (.response status st text json)).state.messages =
            s.messages ++ [⟨.user, jsTrim s.input, none⟩, a]) ∧
    (∀ (s : ChatPage.State) (msg : Option String), jsTrim s.input ≠ "" →
        (ChatPage.sendMessage s (.networkError msg)).state.messages =
          s.messages ++ [⟨.user, s.input, none⟩] ∧
        (ChatPage.sendMessage s (.networkError msg)).state.error.isSome = true) ∧
    (∀ (s : ChatPage.State) (status : Nat) (st text : String) (json : JsonParse ChatBody),
        jsTrim s.input ≠ "" → isOk status = false →
        (ChatPage.sendMessage s (.response status st text json)).state.messages =
          s.messages ++ [⟨.user, s.input, none⟩] ∧
        (ChatPage.sendMessage s (.response status st text json)).state.error.isSome = true) ∧
    (∀ (s : ChatPage.State) (status : Nat) (st text : String) (json : JsonParse ChatBody),
        jsTrim s.input ≠ "" → isOk status = true →
        ∃ rest, (ChatPage.sendMessage s (.response status st text json)).state.messages =
            s.messages ++ ⟨.user, s.input, none⟩ :: rest ∧
          rest.length ≤ 1 ∧ ∀ m ∈ rest, m.role = Role.assistant) := by
  refine ⟨?_, ?_, ?_, ?_, ?_, ?_⟩
  · intro s tk msg htok htk hin
    rw [ChatUI.sendMessage_networkError s tk msg htok htk hin]
    exact ⟨rfl, rfl⟩
  · intro s tk status st text json htok htk hin hok
    by_cases h401 : status = 401
    · subst h401
      rw [ChatUI.sendMessage_401 s tk st text json htok htk hin]
      exact ⟨rfl, rfl⟩
    · rw [ChatUI.sendMessage_httpError s tk status st text json htok htk hin h401 hok]
      exact ⟨rfl, rfl⟩
  · intro s tk status st text json htok htk hin hok
    rw [ChatUI.sendMessage_success s tk status st text json htok htk hin hok]
    exact ⟨_, rfl, rfl⟩
  · intro s msg hin
    rw [ChatPage.sendMessage_failure s (.networkError msg) _ hin
      (chatRequest_networkError s.input (if truthy s.token then s.token else none) msg)]
    exact ⟨rfl, rfl⟩
  · intro s status st text json hin hok
    rw [ChatPage.sendMessage_failure s (.response status st text json) _ hin
      (chatRequest_httpError s.input (if truthy s.token then s.token else none)
        status st text json hok)]
    exact ⟨rfl, rfl⟩
  · intro s status st text json hin hok
    cases json with
    | failed m =>
      rw [ChatPage.sendMessage_failure s (.response status st text (.failed m)) _ hin
        (chatRequest_parseFailed s.input (if truthy s.token then s.token else none)
          status st text m hok)]
      exact ⟨[], rfl, by simp, by simp⟩
    | ok data =>
      rw [ChatPage.sendMessage_ok s (.response status st text (.ok data)) data hin
        (chatRequest_success s.input (if truthy s.token then s.token else none)
          status st text data hok)]
      exact ⟨[⟨.assistant, jsOrD data.answer "(No answer provided.)",
        data.reasoning_steps.map fun steps => filterTruthy (steps.map (·.tool))⟩],
        rfl, by simp, by simp⟩

/-- Witness for C5: a concrete 500 response and a concrete transport error. -/
theorem C5_failed_send_keeps_user_and_no_assistant_witness :
    ((ChatUI.sendMessage ⟨some "tok", [⟨.user, "old", none⟩], "hi", false, none⟩
          (.response 500 "Server Error" "boom" (.ok {}))).state.messages =
        [⟨.user, "old", none⟩] ++ [⟨.user, jsTrim "hi", none⟩] ∧
      (ChatUI.sendMessage ⟨some "tok", [⟨.user, "old", none⟩], "hi", false, none⟩
          (.response 500 "Server Error" "boom" (.ok {}))).state.error.isSome = true) ∧
    ((ChatPage.sendMessage ⟨none, [], "hi", false, none⟩ (.networkError none)).state.messages =
        ([] : List Message) ++ [⟨.user, "hi", none⟩] ∧
      (ChatPage.sendMessage ⟨none, [], "hi", false, none⟩
          (.networkError none)).state.error.isSome = true) :=
  ⟨C5_failed_send_keeps_user_and_no_assistant.2.1
      ⟨some "tok", [⟨.user, "old", none⟩], "hi", false, none⟩ "tok" 500 "Server Error" "boom"
      (.ok {}) rfl (by decide) (by decide) (by decide),
    C5_failed_send_keeps_user_and_no_assistant.2.2.2.1 ⟨none, [], "hi", false, none⟩ none
      (by decide)⟩

/-- C6: the tool names displayed for an assistant message are deduplicated
preserving first-seen order: the display list is a duplicate-free
subsequence of the reported list with exactly its elements, starting at the
first reported name; on input ["a","b","a","c"] both controllers display
["a","b","c"]. -/
theorem C6_displayed_tools_dedup_first_seen :
    (∀ l : List String, List.Sublist (dedupFirst l) l ∧ (dedupFirst l).Nodup ∧
        ∀ x, x ∈ dedupFirst l ↔ x ∈ l) ∧
    (∀ (x : String) (xs : List String), (dedupFirst (x :: xs)).head? = some x) ∧
    ChatPage.renderToolBadges ["a", "b", "a", "c"] = ["a", "b", "c"] ∧
    ChatUI.extractTools
        { reasoning_steps := some [⟨some "a"⟩, ⟨some "b"⟩, ⟨some "a"⟩, ⟨some "c"⟩] } =
      ["a", "b", "c"] := by
  refine ⟨fun l => ⟨dedupFirst_sublist l, dedupFirst_nodup l, fun x => mem_dedupFirst⟩,
    dedupFirst_head, by decide, by decide⟩

/-- C7: `loginRequest` fails on every non-success HTTP status with a failure
carrying that status and a message; on a 2xx response whose parsed body
lacks the `access_token` field it fails with the missing-token error; and it
returns a body only for a 2xx response whose `access_token` is present
(truthy). -/
theorem C7_login_contract :
    (∀ (email pw st text : String) (status : Nat) (json : JsonParse LoginBody),
        isOk status = false →
        ∃ m, loginRequest email pw (.response status st text json) = .failure (.http status m)) ∧
    (∀ (email pw st text : String) (status : Nat) (data : LoginBody),
        isOk status = true → data.access_token = none →
        loginRequest email pw (.response status st text (.ok data)) = .failure .missingToken) ∧
    (∀ (email pw : String) (out : LoginOutcome) (data : LoginBody),
        loginRequest email pw out = .success data →
        ∃ status st text, out = .response status st text (.ok data) ∧
          isOk status = true ∧ truthy data.access_token = true) := by
  refine ⟨?_, ?_, ?_⟩
  · intro email pw st text status json hok
    exact ⟨"Login failed (" ++ toString status ++ "): " ++ jsOrS text (jsOrS st "Unknown error"),
      by simp [loginRequest, hok]⟩
  · intro email pw st text status data hok hat
    simp [loginRequest, hok, hat, truthy]
  · intro email pw out data h
    cases out with
    | networkError msg => simp [loginRequest] at h
    | response status st text json =>
      cases hok : isOk status with
      | false => simp [loginRequest, hok] at h
      | true =>
        cases json with
        | failed m => simp [loginRequest, hok] at h
        | ok d =>
          cases ht : truthy d.access_token with
          | false => simp [loginRequest, hok, ht] at h
          | true =>
            have hd : d = data := by simpa [loginRequest, hok, ht] using h
            subst hd
            exact ⟨status, st, text, rfl, hok, ht⟩

/-- Witness for C7: a concrete 401 failure, a concrete token-less 200
response, and a concrete successful login. -/
theorem C7_login_contract_witness :
    (∃ m, loginRequest "alice@example.com" "password123"
        (.response 401 "Unauthorized" "bad credentials" (.ok {})) = .failure (.http 401 m)) ∧
    loginRequest "alice@example.com" "password123" (.response 200 "OK" "" (.ok {})) =
      .failure .missingToken ∧
    (∃ status st text,
      (.response 200 "OK" "" (.ok ⟨some "tok123", some "bearer"⟩) : LoginOutcome) =
        .response status st text (.ok ⟨some "tok123", some "bearer"⟩) ∧
      isOk status = true ∧ truthy (some "tok123") = true) :=
  ⟨C7_login_contract.1 "alice@example.com" "password123" "Unauthorized" "bad credentials" 401
      (.ok {}) (by decide),
    C7_login_contract.2.1 "alice@example.com" "password123" "OK" "" 200 {} (by decide) rfl,
    C7_login_contract.2.2 "alice@example.com" "password123"
      (.response 200 "OK" "" (.ok ⟨some "tok123", some "bearer"⟩)) ⟨some "tok123", some "bearer"⟩
      (by decide)⟩

/-- C8: a chat response with a 2xx status that parses as JSON but omits the
`answer` field yields an appended assistant message whose content is the
controller's defined placeholder answer, with no error recorded. Stated for
both controllers with their respective placeholders. -/
theorem C8_missing_answer_yields_placeholder :
    (∀ (s : ChatUI.State) (tk : String) (status : Nat) (st text : String) (data : ChatBody),
        s.token = some tk → tk ≠ "" → jsTrim s.input ≠ "" → isOk status = true →
        data.answer = none →
        (ChatUI.sendMessage s (.response status st text (.ok data))).state.messages =
          s.messages ++ [⟨.user, jsTrim s.input, none⟩,
            ⟨.assistant, "(no answer returned)", some (ChatUI.extractTools data)⟩] ∧
        (ChatUI.sendMessage s (.response status st text (.ok data))).state.error = none) ∧
    (∀ (s : ChatPage.State) (status : Nat) (st text : String) (data : ChatBody),
        jsTrim s.input ≠ "" → isOk status = true → data.answer = none →
        (ChatPage.sendMessage s (.response status st text (.ok data))).state.messages =
          s.messages ++ [⟨.user, s.input, none⟩,
            ⟨.assistant, "(No answer provided.)",
              data.reasoning_steps.map fun steps => filterTruthy (steps.map (·.tool))⟩] ∧
        (ChatPage.sendMessage s (.response status st text (.ok data))).state.error = none) := by
  constructor
  · intro s tk status st text data htok htk hin hok hans
    rw [ChatUI.sendMessage_success s tk status st text (.ok data) htok htk hin hok]
    exact ⟨by simp [ChatUI.parsedBody, hans, jsOrD], rfl⟩
  · intro s status st text data hin hok hans
    rw [ChatPage.sendMessage_ok s (.response status st text (.ok data)) data hin
      (chatRequest_success s.input (if truthy s.token then s.token else none)
        status st text data hok)]
    exact ⟨by simp [hans, jsOrD], rfl⟩

/-- Witness for C8: a concrete 200 response with no `answer` field. -/
theorem C8_missing_answer_yields_placeholder_witness :
    (ChatUI.sendMessage ⟨some "tok", [], "hi", false, none⟩
        (.response 200 "OK" "" (.ok {}))).state.messages =
      ([] : List Message) ++ [⟨.user, jsTrim "hi", none⟩,
        ⟨.assistant, "(no answer returned)", some (ChatUI.extractTools {})⟩] ∧
    (ChatUI.sendMessage ⟨some "tok", [], "hi", false, none⟩
        (.response 200 "OK" "" (.ok {}))).state.error = none :=
  C8_missing_answer_yields_placeholder.1 ⟨some "tok", [], "hi", false, none⟩ "tok" 200 "OK" ""
    {} rfl (by decide) (by decide) (by decide) rfl

/-- C9: the chat request carries `Authorization: Bearer <token>` exactly
when a (truthy) token is held: `chatRequest` attaches no header without a
token and the bearer header with one; every request the `ChatUI` controller
issues carries the bearer header of its held token; every request the
`ChatPage` controller issues carries exactly the header `chatAuthHeader`
derives from its current token, absent when no token is held. -/
theorem C9_auth_header_iff_token_held :
    chatAuthHeader none = none ∧
    (∀ t : String, t ≠ "" → chatAuthHeader (some t) = some ("Bearer " ++ t)) ∧
    (∀ (s : ChatUI.State) (out : HttpOutcome) (req : ChatHttpRequest),
        (ChatUI.sendMessage s out).request = some req →
        ∃ tk, s.token = some tk ∧ tk ≠ "" ∧ req.authHeader = some ("Bearer " ++ tk)) ∧
    (∀ (s : ChatPage.State) (out : HttpOutcome) (req : ChatHttpRequest),
        (ChatPage.sendMessage s out).request = some req →
        req.authHeader = chatAuthHeader s.token) := by
  refine ⟨rfl, fun t ht => by simp [chatAuthHeader, ht], ?_, ?_⟩
  · intro s out req h
    by_cases hin : jsTrim s.input = ""
    · rw [ChatUI.sendMessage_guard s out (Or.inl hin)] at h
      simp at h
    · by_cases htr : truthy s.token = true
      · cases htok : s.token with
        | none =>
          rw [htok] at htr
          simp [truthy] at htr
        | some tk =>
          rw [htok] at htr
          have htk : tk ≠ "" := by simpa [truthy] using htr
          rw [ChatUI.sendMessage_request s out tk htok htk hin] at h
          injection h with h2
          exact ⟨tk, rfl, htk, by rw [← h2]⟩

      · rw [ChatUI.sendMessage_guard s out (Or.inr htr)] at h
        simp at h
  · intro s out req h
    by_cases hin : jsTrim s.input = ""
    · rw [ChatPage.sendMessage_blankInput s out hin] at h
      simp at h
    · rw [ChatPage.sendMessage_issuedRequest s out hin] at h
      injection h with h2
      rw [← h2]
      exact chatAuthHeader_if_truthy s.token

/-- Witness for C9: a concrete token and a concrete tokenless request. -/
theorem C9_auth_header_iff_token_held_witness :
    chatAuthHeader (some "tok123") = some ("Bearer " ++ "tok123") ∧
    (⟨"hi", true, none⟩ : ChatHttpRequest).authHeader = chatAuthHeader (none : Option String) :=
  ⟨C9_auth_header_iff_token_held.2.1 "tok123" (by decide),
    C9_auth_header_iff_token_held.2.2.2 ⟨none, [], "hi", false, none⟩ (.networkError none)
      ⟨"hi", true, none⟩ (by decide)⟩

/-- C10: in the `ChatUI` controller a 2xx chat response whose body is not
valid JSON does not fail the controller: the JSON-parse catch substitutes a
body with no answer, one assistant message carrying the placeholder answer
(and no tools) is appended, no error is recorded, and no session
invalidation occurs. -/
theorem C10_invalid_json_on_success_tolerated :
    ∀ (s : ChatUI.State) (tk : String) (status : Nat) (st text pmsg : String),
      s.token = some tk → tk ≠ "" → jsTrim s.input ≠ "" → isOk status = true →
      (ChatUI.sendMessage s (.response status st text (.failed pmsg))).state.error = none ∧
      (ChatUI.sendMessage s (.response status st text (.failed pmsg))).state.messages =
        s.messages ++ [⟨.user, jsTrim s.input, none⟩,
          ⟨.assistant, "(no answer returned)", some []⟩] ∧
      (ChatUI.sendMessage s (.response status st text (.failed pmsg))).tokenCleared = false ∧
      (ChatUI.sendMessage s (.response status st text (.failed pmsg))).redirect = false := by
  intro s tk status st text pmsg htok htk hin hok
  rw [ChatUI.sendMessage_success s tk status st text (.failed pmsg) htok htk hin hok]
  refine ⟨rfl, ?_, rfl, rfl⟩
  simp [ChatUI.parsedBody, ChatUI.invalidJsonFallback, ChatUI.extractTools, jsOrD,
    filterTruthy, dedupFirst, dedupFirstAux]

/-- Witness for C10: a concrete 200 response with an unparseable body. -/
theorem C10_invalid_json_on_success_tolerated_witness :
    (ChatUI.sendMessage ⟨some "tok", [], "hi", false, none⟩
        (.response 200 "OK" "<html>" (.failed "Unexpected token"))).state.error = none ∧
    (ChatUI.sendMessage ⟨some "tok", [], "hi", false, none⟩
        (.response 200 "OK" "<html>" (.failed "Unexpected token"))).state.messages =
      ([] : List Message) ++ [⟨.user, jsTrim "hi", none⟩,
        ⟨.assistant, "(no answer returned)", some []⟩] ∧
    (ChatUI.sendMessage ⟨some "tok", [], "hi", false, none⟩
        (.response 200 "OK" "<html>" (.failed "Unexpected token"))).tokenCleared = false ∧
    (ChatUI.sendMessage ⟨some "tok", [], "hi", false, none⟩
        (.response 200 "OK" "<html>" (.failed "Unexpected token"))).redirect = false :=
  C10_invalid_json_on_success_tolerated ⟨some "tok", [], "hi", false, none⟩ "tok" 200 "OK"
    "<html>" "Unexpected token" rfl (by decide) (by decide) (by decide)

end BookLeaf
